import Mathlib

/-!
# Verification of the circuit-canvas rendering core (ui-circuit-digitiser)

Shallow embedding of `src/components/CircuitCanvas.tsx`: the coordinate
transform applied by `drawDevice` and `drawWire`, the node resolver
`calculateNodePositions`, the wheel-zoom handler `handleWheel`, and the
rotation stepper `handleRotate`.  Numbers are modelled as exact rationals
(`ℚ`); the rotation quadrant value is an integer (`ℤ`).
-/

namespace CircuitCanvas

/-- World position of a device (`interface Position` plus the untyped
`position["scaleFactor"]` property read by `drawDevice`; absent is `none`). -/
structure Position where
  x : ℚ
  y : ℚ
  z : ℚ
  scaleFactor : Option ℚ := none
deriving DecidableEq

/-- Model of `interface Device`. -/
structure Device where
  nodes : List String
  deviceId : String
  position : Position
  rotation : ℚ
  deviceType : String
deriving DecidableEq

/-- Model of `interface Wire`. -/
structure Wire where
  nodes : List String
  wireId : String
deriving DecidableEq

/-- JS `toLowerCase()` (resp. `String.toLower`): lower-case every character.
Written over the character list so that it evaluates by kernel reduction. -/
def lowerString (s : String) : String :=
  ⟨s.data.map Char.toLower⟩

/-- Test `device.deviceType.toLowerCase() === "junction"`. -/
def isJunction (d : Device) : Bool :=
  lowerString d.deviceType == "junction"

/-- JS `device.position["scaleFactor"] || 1`: an absent property and the
falsy number `0` both yield the default `1`. -/
def scaleFactorOrOne (sf : Option ℚ) : ℚ :=
  match sf with
  | none => 1
  | some v => if v = 0 then 1 else v

/-- Source `drawDevice` (CircuitCanvas.tsx lines 162–195): the screen position of a
device, given the view rotation quadrant, zoom `scale`, `pan`, the per-frame
`baseScale` and the `globalScaleFactor`. -/
def deviceScreenPoint (rotation : ℤ) (dev : Device) (scale : ℚ) (pan : ℚ × ℚ)
    (baseScale globalScaleFactor : ℚ) : ℚ × ℚ :=
  let scaleFactor := scaleFactorOrOne dev.position.scaleFactor
  let scaledX := dev.position.x * globalScaleFactor
  let scaledZ := dev.position.z * globalScaleFactor
  if rotation = 0 then
    (scaledX * baseScale * scale * scaleFactor + pan.1,
     scaledZ * baseScale * scale * scaleFactor + pan.2)
  else if rotation = 90 then
    (-scaledZ * baseScale * scale * scaleFactor + pan.1,
     scaledX * baseScale * scale * scaleFactor + pan.2)
  else if rotation = 180 then
    (-scaledX * baseScale * scale * scaleFactor + pan.1,
     -scaledZ * baseScale * scale * scaleFactor + pan.2)
  else if rotation = 270 then
    (scaledZ * baseScale * scale * scaleFactor + pan.1,
     -scaledX * baseScale * scale * scaleFactor + pan.2)
  else
    (scaledX * baseScale * scale * scaleFactor + pan.1,
     scaledZ * baseScale * scale * scaleFactor + pan.2)

/-- Source `drawWire` (CircuitCanvas.tsx lines 340–378), per endpoint: the screen
position of one wire endpoint (no per-device scale factor is applied). -/
def wireEndpointScreenPoint (rotation : ℤ) (pos : Position) (scale : ℚ)
    (pan : ℚ × ℚ) (baseScale globalScaleFactor : ℚ) : ℚ × ℚ :=
  let scaledX := pos.x * globalScaleFactor
  let scaledZ := pos.z * globalScaleFactor
  if rotation = 0 then
    (scaledX * baseScale * scale + pan.1, scaledZ * baseScale * scale + pan.2)
  else if rotation = 90 then
    (-scaledZ * baseScale * scale + pan.1, scaledX * baseScale * scale + pan.2)
  else if rotation = 180 then
    (-scaledX * baseScale * scale + pan.1, -scaledZ * baseScale * scale + pan.2)
  else if rotation = 270 then
    (scaledZ * baseScale * scale + pan.1, -scaledX * baseScale * scale + pan.2)
  else
    (scaledX * baseScale * scale + pan.1, scaledZ * baseScale * scale + pan.2)

/-- One write `nodePositions[nodeId] = pos` into the mapping. -/
def registerNode (pos : Position) (m : String → Option Position)
    (nid : String) : String → Option Position :=
  fun q => if q = nid then some pos else m q

/-- The body of the outer `devices.forEach` in `calculateNodePositions`:
for each node id the device lists, write the device's position if the
device is a junction. -/
def nodeStep (m : String → Option Position) (d : Device) :
    String → Option Position :=
  d.nodes.foldl
    (fun m' nid => if isJunction d then registerNode d.position m' nid else m')
    m

/-- Source `calculateNodePositions` (CircuitCanvas.tsx lines 132–145): map from node
id to the position of the junction device owning it (`none` when no junction
lists the node). -/
def calculateNodePositions (devices : List Device) :
    String → Option Position :=
  devices.foldl nodeStep (fun _ => none)

/-- Source `drawWire` lines 322–331, per endpoint: the owning device is the first
device whose `nodes` contains the id; the position is the junction position
when `calculateNodePositions` resolved one, else the owning device's own
position (`nodePositions[id] || device.position`; a position object is
always truthy). Returns `none` when no device owns the id. -/
def resolveEndpointPos (devices : List Device)
    (nodePositions : String → Option Position) (n : String) :
    Option Position :=
  (devices.find? (fun d => d.nodes.contains n)).map
    (fun d => (nodePositions n).getD d.position)

/-- Source `drawWire` (CircuitCanvas.tsx lines 313–386): the straight segment drawn
for a wire, or `none` when the wire is skipped.  `const [startNodeId,
endNodeId] = wire.nodes` followed by `devices.find(...)`; a missing element
of `wire.nodes` is `undefined`, which no device's string `nodes` contains,
so a too-short `nodes` array also yields no segment. -/
def drawWireSegment (devices : List Device) (wire : Wire)
    (nodePositions : String → Option Position) (rotation : ℤ) (scale : ℚ)
    (pan : ℚ × ℚ) (baseScale globalScaleFactor : ℚ) :
    Option ((ℚ × ℚ) × (ℚ × ℚ)) :=
  match wire.nodes with
  | startNodeId :: endNodeId :: _ =>
    match devices.find? (fun d => d.nodes.contains startNodeId),
          devices.find? (fun d => d.nodes.contains endNodeId) with
    | some startDevice, some endDevice =>
      let startPos := (nodePositions startNodeId).getD startDevice.position
      let endPos := (nodePositions endNodeId).getD endDevice.position
      some (wireEndpointScreenPoint rotation startPos scale pan baseScale
              globalScaleFactor,
            wireEndpointScreenPoint rotation endPos scale pan baseScale
              globalScaleFactor)
    | _, _ => none
  | _ => none

/-- The wire layer of one frame (`circuitData.wires.forEach(drawWire ...)`):
the list of segments actually stroked, in order. -/
def renderWires (devices : List Device) (wires : List Wire)
    (nodePositions : String → Option Position) (rotation : ℤ) (scale : ℚ)
    (pan : ℚ × ℚ) (baseScale globalScaleFactor : ℚ) :
    List ((ℚ × ℚ) × (ℚ × ℚ)) :=
  wires.filterMap (fun w =>
    drawWireSegment devices w nodePositions rotation scale pan baseScale
      globalScaleFactor)

/-- Source `handleWheel` (CircuitCanvas.tsx lines 101–108): the zoom scale after one
wheel event with vertical delta `deltaY`. -/
def handleWheel (deltaY : ℚ) (s : ℚ) : ℚ :=
  let zoomFactor : ℚ := 0.05
  let direction : ℚ := if deltaY > 0 then -1 else 1
  max 0.1 (min 10 (s + direction * zoomFactor))

/-- Source `handleRotate` (CircuitCanvas.tsx lines 147–149): `(prev + 90) % 360`.
Lean's `Int` `%` is `emod`; it agrees with the JS remainder on the
non-negative values reachable from the initial rotation `0`. -/
def handleRotate (r : ℤ) : ℤ :=
  (r + 90) % 360

/-- Modelled from the spec: the scale-factor control is the `Slider` imported
from `src/components/ui/slider`, a file of this repository not present under
`src/`.  Per the spec it confines its value to the `min`/`max` bounds `1000`
and `15000` ("scale-factor requests below 1000 or above 15000 clamp exactly
to those bounds"); the `onValueChange` handler (CircuitCanvas.tsx lines
489–498) then stores the value into `globalScaleFactor` unchanged. -/
def setScaleFactorOp (v : ℚ) : ℚ :=
  max 1000 (min 15000 v)

end CircuitCanvas

namespace CircuitCanvas

/-- C3: for every wheel event and every current zoom scale `s` in
`[0.1, 10]`, the handler returns `max 0.1 (min 10 (s + d * 0.05))` with
`d = -1` when the wheel delta is positive and `d = 1` otherwise; the result
stays in `[0.1, 10]`, and a request that would cross a bound clamps exactly
to `0.1` resp. `10`. -/
theorem wheel_zoom_clamped (deltaY s : ℚ)
    (h₁ : 0.1 ≤ s) (h₂ : s ≤ 10) :
    handleWheel deltaY s
        = max 0.1 (min 10 (s + (if deltaY > 0 then (-1 : ℚ) else 1) * 0.05))
      ∧ 0.1 ≤ handleWheel deltaY s
      ∧ handleWheel deltaY s ≤ 10
      ∧ (s + (if deltaY > 0 then (-1 : ℚ) else 1) * 0.05 < 0.1 →
          handleWheel deltaY s = 0.1)
      ∧ (10 < s + (if deltaY > 0 then (-1 : ℚ) else 1) * 0.05 →
          handleWheel deltaY s = 10) := by
  have hw : handleWheel deltaY s
      = max 0.1 (min 10 (s + (if deltaY > 0 then (-1 : ℚ) else 1) * 0.05)) :=
    rfl
  set d : ℚ := if deltaY > 0 then (-1 : ℚ) else 1 with hd
  refine ⟨hw, ?_, ?_, ?_, ?_⟩
  · rw [hw]; exact le_max_left _ _
  · rw [hw]
    have : min 10 (s + d * 0.05) ≤ 10 := min_le_left _ _
    have h01 : (0.1 : ℚ) ≤ 10 := by norm_num
    exact max_le h01 this
  · intro hlt
    rw [hw]
    have : min 10 (s + d * 0.05) ≤ s + d * 0.05 := min_le_right _ _
    have hle : min 10 (s + d * 0.05) ≤ 0.1 := le_of_lt (lt_of_le_of_lt this hlt)
    exact max_eq_left hle
  · intro hgt
    rw [hw]
    have h1 : min 10 (s + d * 0.05) = 10 := min_eq_left (le_of_lt hgt)
    rw [h1]
    exact max_eq_right (by norm_num)

theorem wheel_zoom_clamped_witness :
    (0.1 : ℚ) ≤ 1 ∧ (1 : ℚ) ≤ 10 ∧
      (handleWheel 3 1
          = max 0.1 (min 10 (1 + (if (3 : ℚ) > 0 then (-1 : ℚ) else 1) * 0.05))
        ∧ 0.1 ≤ handleWheel 3 1
        ∧ handleWheel 3 1 ≤ 10
        ∧ ((1 : ℚ) + (if (3 : ℚ) > 0 then (-1 : ℚ) else 1) * 0.05 < 0.1 →
            handleWheel 3 1 = 0.1)
        ∧ (10 < (1 : ℚ) + (if (3 : ℚ) > 0 then (-1 : ℚ) else 1) * 0.05 →
            handleWheel 3 1 = 10)) :=
  ⟨by norm_num, by norm_num,
    wheel_zoom_clamped 3 1 (by norm_num) (by norm_num)⟩

/-- Unfolding of `deviceScreenPoint` at quadrant 0. -/
theorem deviceScreenPoint_zero (dev : Device) (s : ℚ) (pan : ℚ × ℚ)
    (b g : ℚ) :
    deviceScreenPoint 0 dev s pan b g
      = (dev.position.x * g * b * s
            * scaleFactorOrOne dev.position.scaleFactor + pan.1,
         dev.position.z * g * b * s
            * scaleFactorOrOne dev.position.scaleFactor + pan.2) := rfl

/-- Unfolding of `deviceScreenPoint` at quadrant 90. -/
theorem deviceScreenPoint_ninety (dev : Device) (s : ℚ) (pan : ℚ × ℚ)
    (b g : ℚ) :
    deviceScreenPoint 90 dev s pan b g
      = (-(dev.position.z * g) * b * s
            * scaleFactorOrOne dev.position.scaleFactor + pan.1,
         dev.position.x * g * b * s
            * scaleFactorOrOne dev.position.scaleFactor + pan.2) := rfl

/-- Unfolding of `deviceScreenPoint` at quadrant 180. -/
theorem deviceScreenPoint_oneeighty (dev : Device) (s : ℚ) (pan : ℚ × ℚ)
    (b g : ℚ) :
    deviceScreenPoint 180 dev s pan b g
      = (-(dev.position.x * g) * b * s
            * scaleFactorOrOne dev.position.scaleFactor + pan.1,
         -(dev.position.z * g) * b * s
            * scaleFactorOrOne dev.position.scaleFactor + pan.2) := rfl

/-- Unfolding of `deviceScreenPoint` at quadrant 270. -/
theorem deviceScreenPoint_twoseventy (dev : Device) (s : ℚ) (pan : ℚ × ℚ)
    (b g : ℚ) :
    deviceScreenPoint 270 dev s pan b g
      = (dev.position.z * g * b * s
            * scaleFactorOrOne dev.position.scaleFactor + pan.1,
         -(dev.position.x * g) * b * s
            * scaleFactorOrOne dev.position.scaleFactor + pan.2) := rfl

/-- Unfolding of `wireEndpointScreenPoint` at quadrant 0. -/
theorem wireEndpointScreenPoint_zero (pos : Position) (s : ℚ) (pan : ℚ × ℚ)
    (b g : ℚ) :
    wireEndpointScreenPoint 0 pos s pan b g
      = (pos.x * g * b * s + pan.1, pos.z * g * b * s + pan.2) := rfl

/-- Unfolding of `wireEndpointScreenPoint` at quadrant 90. -/
theorem wireEndpointScreenPoint_ninety (pos : Position) (s : ℚ) (pan : ℚ × ℚ)
    (b g : ℚ) :
    wireEndpointScreenPoint 90 pos s pan b g
      = (-(pos.z * g) * b * s + pan.1, pos.x * g * b * s + pan.2) := rfl

/-- Unfolding of `wireEndpointScreenPoint` at quadrant 180. -/
theorem wireEndpointScreenPoint_oneeighty (pos : Position) (s : ℚ)
    (pan : ℚ × ℚ) (b g : ℚ) :
    wireEndpointScreenPoint 180 pos s pan b g
      = (-(pos.x * g) * b * s + pan.1, -(pos.z * g) * b * s + pan.2) := rfl

/-- Unfolding of `wireEndpointScreenPoint` at quadrant 270. -/
theorem wireEndpointScreenPoint_twoseventy (pos : Position) (s : ℚ)
    (pan : ℚ × ℚ) (b g : ℚ) :
    wireEndpointScreenPoint 270 pos s pan b g
      = (pos.z * g * b * s + pan.1, -(pos.x * g) * b * s + pan.2) := rfl

/-- A device whose position carries an explicit `scaleFactor` of `0`. -/
def scaleFactorZeroDevice : Device :=
  { nodes := ["n1"], deviceId := "D1",
    position := { x := 1, y := 0, z := 0, scaleFactor := some 0 },
    rotation := 0, deviceType := "resistor" }

/-- C1 counterexample: at quadrant 0, zoom 1, pan (0,0), base scale 9/10 and
global scale factor 1000, a device at (x,z) = (1,0) whose `position.scaleFactor`
is the explicit value `0` is drawn at (900, 0): JS `scaleFactor || 1` treats
the falsy value `0` as absent, while the claim's formula with
f = position.scaleFactor = 0 would put the device at (0, 0). -/
theorem transform_scaleFactor_zero_counterexample :
    deviceScreenPoint 0 scaleFactorZeroDevice 1 (0, 0) (9 / 10) 1000
      ≠ ((1 : ℚ) * 1000 * (9 / 10 * 1 * 0) + 0,
         (0 : ℚ) * 1000 * (9 / 10 * 1 * 0) + 0) := by
  rw [deviceScreenPoint_zero]
  simp only [scaleFactorZeroDevice, scaleFactorOrOne]
  norm_num [Prod.ext_iff]

/-- C1 (amended): with f = position.scaleFactor when that property is present
and nonzero, and f = 1 otherwise (for wire endpoints always 1), the transform
computes scaledX = x·g, scaledZ = z·g and returns, with k = b·s·f: at q=0
(scaledX·k + px, scaledZ·k + py); at q=90 (−scaledZ·k + px, scaledX·k + py);
at q=180 (−scaledX·k + px, −scaledZ·k + py); at q=270
(scaledZ·k + px, −scaledX·k + py). -/
theorem transform_quadrant_formula (dev : Device) (pos : Position) (s : ℚ)
    (pan : ℚ × ℚ) (b g : ℚ) :
    deviceScreenPoint 0 dev s pan b g
        = (dev.position.x * g
              * (b * s * scaleFactorOrOne dev.position.scaleFactor) + pan.1,
           dev.position.z * g
              * (b * s * scaleFactorOrOne dev.position.scaleFactor) + pan.2)
      ∧ deviceScreenPoint 90 dev s pan b g
        = (-(dev.position.z * g)
              * (b * s * scaleFactorOrOne dev.position.scaleFactor) + pan.1,
           dev.position.x * g
              * (b * s * scaleFactorOrOne dev.position.scaleFactor) + pan.2)
      ∧ deviceScreenPoint 180 dev s pan b g
        = (-(dev.position.x * g)
              * (b * s * scaleFactorOrOne dev.position.scaleFactor) + pan.1,
           -(dev.position.z * g)
              * (b * s * scaleFactorOrOne dev.position.scaleFactor) + pan.2)
      ∧ deviceScreenPoint 270 dev s pan b g
        = (dev.position.z * g
              * (b * s * scaleFactorOrOne dev.position.scaleFactor) + pan.1,
           -(dev.position.x * g)
              * (b * s * scaleFactorOrOne dev.position.scaleFactor) + pan.2)
      ∧ wireEndpointScreenPoint 0 pos s pan b g
        = (pos.x * g * (b * s * 1) + pan.1, pos.z * g * (b * s * 1) + pan.2)
      ∧ wireEndpointScreenPoint 90 pos s pan b g
        = (-(pos.z * g) * (b * s * 1) + pan.1, pos.x * g * (b * s * 1) + pan.2)
      ∧ wireEndpointScreenPoint 180 pos s pan b g
        = (-(pos.x * g) * (b * s * 1) + pan.1,
           -(pos.z * g) * (b * s * 1) + pan.2)
      ∧ wireEndpointScreenPoint 270 pos s pan b g
        = (pos.z * g * (b * s * 1) + pan.1,
           -(pos.x * g) * (b * s * 1) + pan.2) := by
  refine ⟨?_, ?_, ?_, ?_, ?_, ?_, ?_, ?_⟩
  · rw [deviceScreenPoint_zero]
    simp only [Prod.mk.injEq]
    constructor <;> ring
  · rw [deviceScreenPoint_ninety]
    simp only [Prod.mk.injEq]
    constructor <;> ring
  · rw [deviceScreenPoint_oneeighty]
    simp only [Prod.mk.injEq]
    constructor <;> ring
  · rw [deviceScreenPoint_twoseventy]
    simp only [Prod.mk.injEq]
    constructor <;> ring
  · rw [wireEndpointScreenPoint_zero]
    simp only [Prod.mk.injEq]
    constructor <;> ring
  · rw [wireEndpointScreenPoint_ninety]
    simp only [Prod.mk.injEq]
    constructor <;> ring
  · rw [wireEndpointScreenPoint_oneeighty]
    simp only [Prod.mk.injEq]
    constructor <;> ring
  · rw [wireEndpointScreenPoint_twoseventy]
    simp only [Prod.mk.injEq]
    constructor <;> ring

/-- An example device used to instantiate hypotheses of proved theorems. -/
def exampleDevice : Device :=
  { nodes := ["n1"], deviceId := "D2",
    position := { x := 2, y := 0, z := 3, scaleFactor := none },
    rotation := 0, deviceType := "capacitor" }

/-- An example wire-endpoint position used to instantiate hypotheses. -/
def examplePosition : Position :=
  { x := 2, y := 0, z := 3, scaleFactor := none }

/-- C4: for every world position, base scale, zoom scale, global and local
scale factor, and quadrant Q ∈ {0, 90, 180, 270}, the screen point at Q with
pan (0,0) is the componentwise negative of the screen point at
(Q + 180) mod 360 with pan (0,0), for devices and for wire endpoints. -/
theorem quadrant_opposite_negation (dev : Device) (pos : Position) (s b g : ℚ)
    (q : ℤ) (hq : q = 0 ∨ q = 90 ∨ q = 180 ∨ q = 270) :
    deviceScreenPoint q dev s (0, 0) b g
        = (-(deviceScreenPoint ((q + 180) % 360) dev s (0, 0) b g).1,
           -(deviceScreenPoint ((q + 180) % 360) dev s (0, 0) b g).2)
      ∧ wireEndpointScreenPoint q pos s (0, 0) b g
        = (-(wireEndpointScreenPoint ((q + 180) % 360) pos s (0, 0) b g).1,
           -(wireEndpointScreenPoint ((q + 180) % 360) pos s (0, 0) b g).2) := by
  rcases hq with rfl | rfl | rfl | rfl
  · have h : ((0 : ℤ) + 180) % 360 = 180 := by decide
    rw [h, deviceScreenPoint_zero, deviceScreenPoint_oneeighty,
      wireEndpointScreenPoint_zero, wireEndpointScreenPoint_oneeighty]
    dsimp only
    simp only [Prod.mk.injEq]
    exact ⟨⟨by ring, by ring⟩, by ring, by ring⟩
  · have h : ((90 : ℤ) + 180) % 360 = 270 := by decide
    rw [h, deviceScreenPoint_ninety, deviceScreenPoint_twoseventy,
      wireEndpointScreenPoint_ninety, wireEndpointScreenPoint_twoseventy]
    dsimp only
    simp only [Prod.mk.injEq]
    exact ⟨⟨by ring, by ring⟩, by ring, by ring⟩
  · have h : ((180 : ℤ) + 180) % 360 = 0 := by decide
    rw [h, deviceScreenPoint_oneeighty, deviceScreenPoint_zero,
      wireEndpointScreenPoint_oneeighty, wireEndpointScreenPoint_zero]
    dsimp only
    simp only [Prod.mk.injEq]
    exact ⟨⟨by ring, by ring⟩, by ring, by ring⟩
  · have h : ((270 : ℤ) + 180) % 360 = 90 := by decide
    rw [h, deviceScreenPoint_twoseventy, deviceScreenPoint_ninety,
      wireEndpointScreenPoint_twoseventy, wireEndpointScreenPoint_ninety]
    dsimp only
    simp only [Prod.mk.injEq]
    exact ⟨⟨by ring, by ring⟩, by ring, by ring⟩

theorem quadrant_opposite_negation_witness :
    ((90 : ℤ) = 0 ∨ (90 : ℤ) = 90 ∨ (90 : ℤ) = 180 ∨ (90 : ℤ) = 270)
      ∧ (deviceScreenPoint 90 exampleDevice 1 (0, 0) (9 / 10) 1000
          = (-(deviceScreenPoint ((90 + 180) % 360) exampleDevice 1 (0, 0)
                  (9 / 10) 1000).1,
             -(deviceScreenPoint ((90 + 180) % 360) exampleDevice 1 (0, 0)
                  (9 / 10) 1000).2)
        ∧ wireEndpointScreenPoint 90 examplePosition 1 (0, 0) (9 / 10) 1000
          = (-(wireEndpointScreenPoint ((90 + 180) % 360) examplePosition 1
                  (0, 0) (9 / 10) 1000).1,
             -(wireEndpointScreenPoint ((90 + 180) % 360) examplePosition 1
                  (0, 0) (9 / 10) 1000).2)) :=
  ⟨by norm_num,
    quadrant_opposite_negation exampleDevice examplePosition 1 (9 / 10) 1000 90
      (by norm_num)⟩

/-- C10: for every rotation value r outside {0, 90, 180, 270}, the device
transform and the wire-endpoint transform are total and produce exactly the
screen coordinates of rotation 0 (the switch's default branch duplicates the
0° case). -/
theorem default_rotation_matches_zero (r : ℤ) (dev : Device) (pos : Position)
    (s : ℚ) (pan : ℚ × ℚ) (b g : ℚ)
    (h0 : r ≠ 0) (h90 : r ≠ 90) (h180 : r ≠ 180) (h270 : r ≠ 270) :
    deviceScreenPoint r dev s pan b g = deviceScreenPoint 0 dev s pan b g
      ∧ wireEndpointScreenPoint r pos s pan b g
        = wireEndpointScreenPoint 0 pos s pan b g := by
  constructor <;>
    simp [deviceScreenPoint, wireEndpointScreenPoint, h0, h90, h180, h270]

theorem default_rotation_matches_zero_witness :
    ((45 : ℤ) ≠ 0) ∧ ((45 : ℤ) ≠ 90) ∧ ((45 : ℤ) ≠ 180) ∧ ((45 : ℤ) ≠ 270)
      ∧ (deviceScreenPoint 45 exampleDevice 1 (0, 0) (9 / 10) 1000
          = deviceScreenPoint 0 exampleDevice 1 (0, 0) (9 / 10) 1000
        ∧ wireEndpointScreenPoint 45 examplePosition 1 (0, 0) (9 / 10) 1000
          = wireEndpointScreenPoint 0 examplePosition 1 (0, 0) (9 / 10) 1000) :=
  ⟨by norm_num, by norm_num, by norm_num, by norm_num,
    default_rotation_matches_zero 45 exampleDevice examplePosition 1 (0, 0)
      (9 / 10) 1000 (by norm_num) (by norm_num) (by norm_num) (by norm_num)⟩

/-- Folding a constant accumulator function changes nothing. -/
theorem foldl_keep_apply (l : List String) (m : String → Option Position) :
    l.foldl (fun m' _ => m') m = m := by
  induction l generalizing m with
  | nil => rfl
  | cons a l ih => rw [List.foldl_cons]; exact ih m

/-- Folding `registerNode p` over a node list writes `p` at exactly the
listed node ids. -/
theorem foldl_registerNode_apply (p : Position) (l : List String)
    (m : String → Option Position) (n : String) :
    (l.foldl (registerNode p) m) n = if n ∈ l then some p else m n := by
  induction l generalizing m with
  | nil => simp
  | cons a l ih =>
    rw [List.foldl_cons, ih]
    simp only [registerNode, List.mem_cons]
    by_cases ha : n = a <;> by_cases hn : n ∈ l <;> simp [ha, hn]

/-- The effect of one device on the node-position map: a junction writes its
position at each of its node ids, any other device leaves the map alone. -/
theorem nodeStep_apply (m : String → Option Position) (d : Device)
    (n : String) :
    nodeStep m d n
      = if isJunction d = true ∧ n ∈ d.nodes then some d.position else m n := by
  unfold nodeStep
  cases hj : isJunction d with
  | false =>
    simp only [hj, Bool.false_eq_true, if_false, false_and]
    rw [foldl_keep_apply]
  | true =>
    simp only [hj, if_true, true_and]
    rw [foldl_registerNode_apply]

/-- When no junction in `devices` lists `n`, folding `nodeStep` leaves the
map unchanged at `n`. -/
theorem foldl_nodeStep_no_junction (n : String) :
    ∀ (devices : List Device) (m : String → Option Position),
      (∀ d ∈ devices, ¬(isJunction d = true ∧ n ∈ d.nodes)) →
      (devices.foldl nodeStep m) n = m n := by
  intro devices
  induction devices with
  | nil => intro m _; rfl
  | cons d ds ih =>
    intro m h
    rw [List.foldl_cons, ih _ (fun d' hd' => h d' (List.mem_cons_of_mem _ hd')),
      nodeStep_apply]
    simp [h d (List.mem_cons_self _ _)]

/-- When some junction in `devices` lists `n`, folding `nodeStep` ends with
the position of a junction that lists `n`. -/
theorem foldl_nodeStep_junction (n : String) :
    ∀ (devices : List Device) (m : String → Option Position),
      (∃ d ∈ devices, isJunction d = true ∧ n ∈ d.nodes) →
      ∃ j ∈ devices, isJunction j = true ∧ n ∈ j.nodes ∧
        (devices.foldl nodeStep m) n = some j.position := by
  intro devices
  induction devices with
  | nil => intro m h; simp at h
  | cons d ds ih =>
    intro m h
    rw [List.foldl_cons]
    by_cases hds : ∃ d' ∈ ds, isJunction d' = true ∧ n ∈ d'.nodes
    · obtain ⟨j, hj, hjj, hjn, hje⟩ := ih (nodeStep m d) hds
      exact ⟨j, List.mem_cons_of_mem _ hj, hjj, hjn, hje⟩
    · obtain ⟨d', hd', hprop⟩ := h
      have hdd : d' = d := by
        rcases List.mem_cons.mp hd' with h1 | h1
        · exact h1
        · exact absurd ⟨d', h1, hprop⟩ hds
      subst hdd
      refine ⟨d', List.mem_cons_self _ _, hprop.1, hprop.2, ?_⟩
      rw [foldl_nodeStep_no_junction n ds _
        (fun d'' hd'' hc => hds ⟨d'', hd'', hc⟩), nodeStep_apply]
      simp [hprop.1, hprop.2]

/-- C6: if some device whose lowercased `deviceType` is `"junction"` lists
node `n`, the endpoint position used for `n` is a junction device's position;
if no junction lists `n` but some device does, the endpoint uses the position
of the first device in the devices array whose `nodes` contains `n`. -/
theorem node_resolution_precedence (devices : List Device) (n : String) :
    ((∃ d ∈ devices, isJunction d = true ∧ n ∈ d.nodes) →
      ∃ j ∈ devices, isJunction j = true ∧ n ∈ j.nodes ∧
        resolveEndpointPos devices (calculateNodePositions devices) n
          = some j.position)
    ∧ ((∀ d ∈ devices, ¬(isJunction d = true ∧ n ∈ d.nodes)) →
        ∀ d₀ : Device, devices.find? (fun d => d.nodes.contains n) = some d₀ →
          resolveEndpointPos devices (calculateNodePositions devices) n
            = some d₀.position) := by
  constructor
  · intro h
    obtain ⟨j, hj, hjj, hjn, hje⟩ :=
      foldl_nodeStep_junction n devices (fun _ => none) h
    refine ⟨j, hj, hjj, hjn, ?_⟩
    unfold resolveEndpointPos
    cases hf : devices.find? (fun d => d.nodes.contains n) with
    | none =>
      exfalso
      have hnone := List.find?_eq_none.mp hf j hj
      simp [List.contains, List.elem_eq_mem] at hnone
      exact hnone hjn
    | some d₀ =>
      have hcalc : calculateNodePositions devices n = some j.position := hje
      simp [hcalc]
  · intro h d₀ hf
    unfold resolveEndpointPos
    rw [hf]
    have hcalc : calculateNodePositions devices n = none :=
      foldl_nodeStep_no_junction n devices (fun _ => none) h
    simp [hcalc]

/-- Devices of the spec's §8 example scenario. -/
def deviceR1 : Device :=
  { nodes := ["n1", "n2"], deviceId := "R1",
    position := { x := 1, y := 0, z := 0 }, rotation := 0,
    deviceType := "resistor" }

def deviceJ1 : Device :=
  { nodes := ["n1"], deviceId := "J1",
    position := { x := 1, y := 0, z := 0 }, rotation := 0,
    deviceType := "junction" }

def sceneDevices : List Device := [deviceR1, deviceJ1]

def wireW1 : Wire := { nodes := ["n1", "n2"], wireId := "W1" }

theorem node_resolution_precedence_witness :
    (∃ d ∈ sceneDevices, isJunction d = true ∧ "n1" ∈ d.nodes)
      ∧ (∃ j ∈ sceneDevices, isJunction j = true ∧ "n1" ∈ j.nodes ∧
          resolveEndpointPos sceneDevices (calculateNodePositions sceneDevices)
            "n1" = some j.position) :=
  ⟨⟨deviceJ1, by simp [sceneDevices], by decide, by decide⟩,
    (node_resolution_precedence sceneDevices "n1").1
      ⟨deviceJ1, by simp [sceneDevices], by decide, by decide⟩⟩

/-- C7: a wire with an endpoint node id owned by no device draws no segment,
and the rest of the frame is unaffected: the wire layer rendered with the
dangling wire present equals the one rendered without it. -/
theorem dangling_wire_skipped (devices : List Device) (wire : Wire)
    (np : String → Option Position) (rot : ℤ) (s : ℚ) (pan : ℚ × ℚ)
    (b g : ℚ) (startId endId : String) (rest : List String)
    (hnodes : wire.nodes = startId :: endId :: rest)
    (hdangling : (∀ d ∈ devices, startId ∉ d.nodes)
      ∨ (∀ d ∈ devices, endId ∉ d.nodes)) :
    drawWireSegment devices wire np rot s pan b g = none
      ∧ ∀ ws₁ ws₂ : List Wire,
          renderWires devices (ws₁ ++ wire :: ws₂) np rot s pan b g
            = renderWires devices (ws₁ ++ ws₂) np rot s pan b g := by
  have hmain : drawWireSegment devices wire np rot s pan b g = none := by
    unfold drawWireSegment
    rw [hnodes]
    dsimp only
    rcases hdangling with h | h
    · have hfs : devices.find? (fun d => d.nodes.contains startId) = none :=
        List.find?_eq_none.mpr
          (fun d hdm => by simp [List.contains, List.elem_eq_mem, h d hdm])
      rw [hfs]
    · have hfe : devices.find? (fun d => d.nodes.contains endId) = none :=
        List.find?_eq_none.mpr
          (fun d hdm => by simp [List.contains, List.elem_eq_mem, h d hdm])
      rw [hfe]
      cases hfs : devices.find? (fun d => d.nodes.contains startId) <;> rfl
  refine ⟨hmain, ?_⟩
  intro ws₁ ws₂
  unfold renderWires
  rw [List.filterMap_append, List.filterMap_append,
    List.filterMap_cons_none
      (f := fun w => drawWireSegment devices w np rot s pan b g) hmain]

/-- A wire whose second endpoint id `"nx"` is owned by no device. -/
def danglingWire : Wire := { nodes := ["n1", "nx"], wireId := "W9" }

theorem dangling_wire_skipped_witness :
    danglingWire.nodes = "n1" :: "nx" :: []
      ∧ ((∀ d ∈ sceneDevices, "n1" ∉ d.nodes)
          ∨ (∀ d ∈ sceneDevices, "nx" ∉ d.nodes))
      ∧ (drawWireSegment sceneDevices danglingWire
            (calculateNodePositions sceneDevices) 0 1 (0, 0) (9 / 10) 1000
            = none
        ∧ ∀ ws₁ ws₂ : List Wire,
            renderWires sceneDevices (ws₁ ++ danglingWire :: ws₂)
              (calculateNodePositions sceneDevices) 0 1 (0, 0) (9 / 10) 1000
              = renderWires sceneDevices (ws₁ ++ ws₂)
                  (calculateNodePositions sceneDevices) 0 1 (0, 0) (9 / 10)
                  1000) :=
  ⟨rfl, Or.inr (by decide),
    dangling_wire_skipped sceneDevices danglingWire
      (calculateNodePositions sceneDevices) 0 1 (0, 0) (9 / 10) 1000
      "n1" "nx" [] rfl (Or.inr (by decide))⟩

/-- C2: the set-scale-factor operation clamps exactly to [1000, 15000]: a
request below 1000 stores exactly 1000, a request above 15000 stores exactly
15000, and a request inside the interval is stored unchanged. -/
theorem scaleFactor_clamped (v : ℚ) :
    (v < 1000 → setScaleFactorOp v = 1000)
      ∧ (15000 < v → setScaleFactorOp v = 15000)
      ∧ (1000 ≤ v → v ≤ 15000 → setScaleFactorOp v = v) := by
  unfold setScaleFactorOp
  refine ⟨?_, ?_, ?_⟩
  · intro h
    exact max_eq_left (le_trans (min_le_right _ _) (le_of_lt h))
  · intro h
    rw [min_eq_left (le_of_lt h)]
    exact max_eq_right (by norm_num)
  · intro h₁ h₂
    rw [min_eq_right h₂]
    exact max_eq_right h₁

theorem scaleFactor_clamped_witness :
    ((500 : ℚ) < 1000 ∧ setScaleFactorOp 500 = 1000)
      ∧ ((15000 : ℚ) < 20000 ∧ setScaleFactorOp 20000 = 15000)
      ∧ ((1000 : ℚ) ≤ 8000 ∧ (8000 : ℚ) ≤ 15000
          ∧ setScaleFactorOp 8000 = 8000) :=
  ⟨⟨by norm_num, (scaleFactor_clamped 500).1 (by norm_num)⟩,
   ⟨by norm_num, (scaleFactor_clamped 20000).2.1 (by norm_num)⟩,
   ⟨by norm_num, by norm_num,
     (scaleFactor_clamped 8000).2.2 (by norm_num) (by norm_num)⟩⟩

/-- C9: in the spec's §8 scenario (R1 resistor at (1,0) with nodes
["n1","n2"], J1 junction at (1,0) with nodes ["n1"], wire W1 over
["n1","n2"], quadrant 0, zoom 1, pan (0,0), globalScaleFactor 1000,
baseScale 9/10): the resolver maps "n1" to the junction's position (1,0);
no junction resolves "n2", whose endpoint falls back to R1's own position;
and W1's start endpoint transforms to the screen point (900, 0). -/
theorem example_scenario :
    calculateNodePositions sceneDevices "n1" = some deviceJ1.position
      ∧ deviceJ1.position.x = 1 ∧ deviceJ1.position.z = 0
      ∧ calculateNodePositions sceneDevices "n2" = none
      ∧ sceneDevices.find? (fun d => d.nodes.contains "n2") = some deviceR1
      ∧ resolveEndpointPos sceneDevices (calculateNodePositions sceneDevices)
          "n2" = some deviceR1.position
      ∧ drawWireSegment sceneDevices wireW1
          (calculateNodePositions sceneDevices) 0 1 (0, 0) (9 / 10) 1000
        = some ((900, 0), (900, 0)) := by
  have h1 : calculateNodePositions sceneDevices "n1"
      = some deviceJ1.position := by
    show nodeStep (nodeStep (fun _ => none) deviceR1) deviceJ1 "n1"
      = some deviceJ1.position
    rw [nodeStep_apply,
      if_pos (⟨by decide, by decide⟩ :
        isJunction deviceJ1 = true ∧ "n1" ∈ deviceJ1.nodes)]
  have h2 : calculateNodePositions sceneDevices "n2" = none := by
    show nodeStep (nodeStep (fun _ => none) deviceR1) deviceJ1 "n2" = none
    rw [nodeStep_apply,
      if_neg (by decide : ¬(isJunction deviceJ1 = true ∧ "n2" ∈ deviceJ1.nodes)),
      nodeStep_apply,
      if_neg (by decide : ¬(isJunction deviceR1 = true ∧ "n2" ∈ deviceR1.nodes))]
  have hf1 : sceneDevices.find? (fun d => d.nodes.contains "n1")
      = some deviceR1 := by decide
  have hf2 : sceneDevices.find? (fun d => d.nodes.contains "n2")
      = some deviceR1 := by decide
  have h4 : resolveEndpointPos sceneDevices
      (calculateNodePositions sceneDevices) "n2" = some deviceR1.position := by
    unfold resolveEndpointPos
    rw [hf2, h2]
    rfl
  refine ⟨h1, rfl, rfl, h2, hf2, h4, ?_⟩
  show (match wireW1.nodes with
    | startNodeId :: endNodeId :: _ =>
      match sceneDevices.find? (fun d => d.nodes.contains startNodeId),
            sceneDevices.find? (fun d => d.nodes.contains endNodeId) with
      | some startDevice, some endDevice =>
        some (wireEndpointScreenPoint 0
                ((calculateNodePositions sceneDevices startNodeId).getD
                  startDevice.position) 1 (0, 0) (9 / 10) 1000,
              wireEndpointScreenPoint 0
                ((calculateNodePositions sceneDevices endNodeId).getD
                  endDevice.position) 1 (0, 0) (9 / 10) 1000)
      | _, _ => none
    | _ => none) = some ((900, 0), (900, 0))
  rw [show wireW1.nodes = ["n1", "n2"] from rfl]
  dsimp only
  rw [hf1, hf2]
  dsimp only
  rw [h1, h2]
  dsimp only [Option.getD_some, Option.getD_none]
  rw [wireEndpointScreenPoint_zero, wireEndpointScreenPoint_zero]
  norm_num [deviceJ1, deviceR1]

/-- The JS fallback `scaleFactor || 1` never yields 0. -/
theorem scaleFactorOrOne_ne_zero (sf : Option ℚ) : scaleFactorOrOne sf ≠ 0 := by
  cases sf with
  | none => simp [scaleFactorOrOne]
  | some v =>
    simp only [scaleFactorOrOne]
    by_cases h : v = 0 <;> simp [h]

/-- A sum of squares of a pair that is not (0,0) is positive. -/
theorem sum_sq_pos_of_ne (x z : ℚ) (h : ¬(x = 0 ∧ z = 0)) :
    0 < x ^ 2 + z ^ 2 := by
  rcases not_and_or.mp h with h | h
  · have hx := mul_self_pos.mpr h
    nlinarith [sq_nonneg z]
  · have hz := mul_self_pos.mpr h
    nlinarith [sq_nonneg x]

/-- At each legal quadrant, the squared screen offset from the pan origin is
`(x² + z²) · (g·b·f)² · s²`. -/
theorem deviceScreenPoint_offset_sq (dev : Device) (q : ℤ) (pan : ℚ × ℚ)
    (b g s : ℚ) (hq : q = 0 ∨ q = 90 ∨ q = 180 ∨ q = 270) :
    ((deviceScreenPoint q dev s pan b g).1 - pan.1) ^ 2
        + ((deviceScreenPoint q dev s pan b g).2 - pan.2) ^ 2
      = (dev.position.x ^ 2 + dev.position.z ^ 2)
          * (g * b * scaleFactorOrOne dev.position.scaleFactor) ^ 2
          * s ^ 2 := by
  rcases hq with rfl | rfl | rfl | rfl
  · rw [deviceScreenPoint_zero]; dsimp only; ring
  · rw [deviceScreenPoint_ninety]; dsimp only; ring
  · rw [deviceScreenPoint_oneeighty]; dsimp only; ring
  · rw [deviceScreenPoint_twoseventy]; dsimp only; ring

/-- C5 counterexample: with base scale 0 (a degenerate drawing surface), the
non-origin device at (2,3) maps to the pan origin at every zoom, so the
screen-offset distance is not strictly increasing in zoomScale: at quadrant
0, pan (0,0), global scale factor 1000 and zooms 1 < 2 the two distances are
equal. -/
theorem zoom_monotonicity_counterexample :
    (exampleDevice.position.x, exampleDevice.position.z) ≠ ((0 : ℚ), 0)
      ∧ (1 : ℚ) < 2
      ∧ ¬(Real.sqrt
            ((((deviceScreenPoint 0 exampleDevice 1 (0, 0) 0 1000).1 - 0) ^ 2
              + ((deviceScreenPoint 0 exampleDevice 1 (0, 0) 0 1000).2 - 0) ^ 2
              : ℚ))
          < Real.sqrt
            ((((deviceScreenPoint 0 exampleDevice 2 (0, 0) 0 1000).1 - 0) ^ 2
              + ((deviceScreenPoint 0 exampleDevice 2 (0, 0) 0 1000).2 - 0) ^ 2
              : ℚ))) := by
  refine ⟨by norm_num [exampleDevice], by norm_num, ?_⟩
  have e1 : (((deviceScreenPoint 0 exampleDevice 1 (0, 0) 0 1000).1 - 0) ^ 2
      + ((deviceScreenPoint 0 exampleDevice 1 (0, 0) 0 1000).2 - 0) ^ 2 : ℚ)
      = 0 := by
    rw [deviceScreenPoint_zero]; norm_num
  have e2 : (((deviceScreenPoint 0 exampleDevice 2 (0, 0) 0 1000).1 - 0) ^ 2
      + ((deviceScreenPoint 0 exampleDevice 2 (0, 0) 0 1000).2 - 0) ^ 2 : ℚ)
      = 0 := by
    rw [deviceScreenPoint_zero]; norm_num
  rw [e1, e2]
  exact lt_irrefl _

/-- C5 (amended): for every device at a world position with (x,z) ≠ (0,0),
every quadrant in {0, 90, 180, 270}, every pan, every nonzero base scale and
nonzero global scale factor (and whatever local scale factor the device
carries — the JS fallback makes it nonzero), the Euclidean distance between
the transformed screen point and the pan origin is strictly increasing in
zoomScale on [0.1, 10]. -/
theorem zoom_monotonicity (dev : Device) (q : ℤ) (pan : ℚ × ℚ)
    (b g s₁ s₂ : ℚ)
    (hq : q = 0 ∨ q = 90 ∨ q = 180 ∨ q = 270)
    (hxz : (dev.position.x, dev.position.z) ≠ ((0 : ℚ), 0))
    (hb : b ≠ 0) (hg : g ≠ 0)
    (hs₁ : 0.1 ≤ s₁) (hlt : s₁ < s₂) (hs₂ : s₂ ≤ 10) :
    Real.sqrt ((((deviceScreenPoint q dev s₁ pan b g).1 - pan.1) ^ 2
        + ((deviceScreenPoint q dev s₁ pan b g).2 - pan.2) ^ 2 : ℚ))
      < Real.sqrt ((((deviceScreenPoint q dev s₂ pan b g).1 - pan.1) ^ 2
        + ((deviceScreenPoint q dev s₂ pan b g).2 - pan.2) ^ 2 : ℚ)) := by
  rw [deviceScreenPoint_offset_sq dev q pan b g s₁ hq,
    deviceScreenPoint_offset_sq dev q pan b g s₂ hq]
  have hxz' : ¬(dev.position.x = 0 ∧ dev.position.z = 0) := by
    simpa [Prod.ext_iff] using hxz
  have hx2 : 0 < dev.position.x ^ 2 + dev.position.z ^ 2 :=
    sum_sq_pos_of_ne _ _ hxz'
  have hgbf : g * b * scaleFactorOrOne dev.position.scaleFactor ≠ 0 :=
    mul_ne_zero (mul_ne_zero hg hb)
      (scaleFactorOrOne_ne_zero dev.position.scaleFactor)
  have hP : 0 < (g * b * scaleFactorOrOne dev.position.scaleFactor) ^ 2 := by
    rw [pow_two]; exact mul_self_pos.mpr hgbf
  have hA : 0 < (dev.position.x ^ 2 + dev.position.z ^ 2)
      * (g * b * scaleFactorOrOne dev.position.scaleFactor) ^ 2 :=
    mul_pos hx2 hP
  have h0 : (0 : ℚ) < s₁ := by norm_num at hs₁ ⊢; linarith
  have key : (dev.position.x ^ 2 + dev.position.z ^ 2)
        * (g * b * scaleFactorOrOne dev.position.scaleFactor) ^ 2 * s₁ ^ 2
      < (dev.position.x ^ 2 + dev.position.z ^ 2)
        * (g * b * scaleFactorOrOne dev.position.scaleFactor) ^ 2 * s₂ ^ 2 := by
    nlinarith [mul_pos hA (mul_pos (sub_pos.mpr hlt)
      (show (0 : ℚ) < s₁ + s₂ by linarith))]
  have hnn : (0 : ℚ) ≤ (dev.position.x ^ 2 + dev.position.z ^ 2)
      * (g * b * scaleFactorOrOne dev.position.scaleFactor) ^ 2 * s₁ ^ 2 := by
    positivity
  apply Real.sqrt_lt_sqrt
  · exact_mod_cast hnn
  · exact_mod_cast key

theorem zoom_monotonicity_witness :
    ((0 : ℤ) = 0 ∨ (0 : ℤ) = 90 ∨ (0 : ℤ) = 180 ∨ (0 : ℤ) = 270)
      ∧ (exampleDevice.position.x, exampleDevice.position.z) ≠ ((0 : ℚ), 0)
      ∧ ((9 : ℚ) / 10) ≠ 0 ∧ (1000 : ℚ) ≠ 0
      ∧ (0.1 : ℚ) ≤ 1 ∧ (1 : ℚ) < 2 ∧ (2 : ℚ) ≤ 10
      ∧ Real.sqrt
          ((((deviceScreenPoint 0 exampleDevice 1 (0, 0) (9 / 10) 1000).1
                - (0, 0).1) ^ 2
            + ((deviceScreenPoint 0 exampleDevice 1 (0, 0) (9 / 10) 1000).2
                - (0, 0).2) ^ 2 : ℚ))
        < Real.sqrt
            ((((deviceScreenPoint 0 exampleDevice 2 (0, 0) (9 / 10) 1000).1
                  - (0, 0).1) ^ 2
              + ((deviceScreenPoint 0 exampleDevice 2 (0, 0) (9 / 10) 1000).2
                  - (0, 0).2) ^ 2 : ℚ)) :=
  ⟨Or.inl rfl, by norm_num [exampleDevice], by norm_num, by norm_num,
    by norm_num, by norm_num, by norm_num,
    zoom_monotonicity exampleDevice 0 (0, 0) (9 / 10) 1000 1 2 (Or.inl rfl)
      (by norm_num [exampleDevice]) (by norm_num) (by norm_num) (by norm_num)
      (by norm_num) (by norm_num)⟩

/-- C8: one rotate action maps `r` to `(r + 90) % 360`, so `0 ↦ 90`,
`90 ↦ 180`, `180 ↦ 270`, `270 ↦ 0`; starting from the initial value `0`,
any number of rotate actions leaves the rotation in `{0, 90, 180, 270}`. -/
theorem rotate_step_quadrants :
    handleRotate 0 = 90 ∧ handleRotate 90 = 180 ∧ handleRotate 180 = 270
      ∧ handleRotate 270 = 0
      ∧ ∀ n : ℕ, handleRotate^[n] 0 ∈ ({0, 90, 180, 270} : Set ℤ) := by
  refine ⟨by decide, by decide, by decide, by decide, ?_⟩
  intro n
  induction n with
  | zero => simp
  | succ k ih =>
    rw [Function.iterate_succ_apply']
    rcases ih with h | h | h | h <;> rw [h] <;> decide

end CircuitCanvas
